import Mathlib

/-!
# Verification of the cli-trace geometry and timing core

Shallow embedding of the Bézier math, LUT, timeline, easing and SVG path
parsing code of the cli-trace repository, with theorems settling the
specification claims.  JavaScript `number` values are modelled as real
numbers; machine floating point is outside the model.
-/

namespace CliTrace

/-- A 2-D point, `Point` from `core/src/types.ts`. -/
structure Point where
  x : ℝ
  y : ℝ

theorem Point.ext_xy {p q : Point} (hx : p.x = q.x) (hy : p.y = q.y) : p = q := by
  cases p; cases q; simp_all

/-- `CubicBezierCurve` from `core/src/types.ts`. -/
structure CubicBezierCurve where
  start : Point
  control1 : Point
  control2 : Point
  «end» : Point

/-- `QuadraticBezierCurve` from `core/src/types.ts`. -/
structure QuadraticBezierCurve where
  start : Point
  control : Point
  «end» : Point

/-- `BezierCurve = CubicBezierCurve | QuadraticBezierCurve`; the source
distinguishes the variants by presence of a `control1` field, modelled here
as an explicit sum. -/
inductive BezierCurve where
  | cubic (c : CubicBezierCurve)
  | quad (q : QuadraticBezierCurve)

/-- `cubicBezierPoint` from `core/src/bezier.ts`: closed-form Bernstein
evaluation of a cubic Bézier at parameter `t`. -/
def cubicBezierPoint (curve : CubicBezierCurve) (t : ℝ) : Point :=
  let mt := 1 - t
  { x := mt * mt * mt * curve.start.x +
         3 * mt * mt * t * curve.control1.x +
         3 * mt * t * t * curve.control2.x +
         t * t * t * curve.end.x
    y := mt * mt * mt * curve.start.y +
         3 * mt * mt * t * curve.control1.y +
         3 * mt * t * t * curve.control2.y +
         t * t * t * curve.end.y }

/-- `quadraticBezierPoint` from `core/src/bezier.ts`. -/
def quadraticBezierPoint (curve : QuadraticBezierCurve) (t : ℝ) : Point :=
  let mt := 1 - t
  { x := mt * mt * curve.start.x + 2 * mt * t * curve.control.x + t * t * curve.end.x
    y := mt * mt * curve.start.y + 2 * mt * t * curve.control.y + t * t * curve.end.y }

/-- `bezierPoint` from `core/src/bezier.ts`: dispatch on the curve variant. -/
def bezierPoint (curve : BezierCurve) (t : ℝ) : Point :=
  match curve with
  | .cubic c => cubicBezierPoint c t
  | .quad q => quadraticBezierPoint q t

/-- Start point of either curve variant. -/
def BezierCurve.start : BezierCurve → Point
  | .cubic c => c.start
  | .quad q => q.start

/-- End point of either curve variant. -/
def BezierCurve.end : BezierCurve → Point
  | .cubic c => c.end
  | .quad q => q.end

/-- `cubicBezierArcLength` from `core/src/bezier.ts`: chord-sum
approximation with `samples` uniformly spaced parameter steps. -/
noncomputable def cubicBezierArcLength (curve : CubicBezierCurve) (samples : ℕ) : ℝ :=
  let dt : ℝ := 1 / samples
  ∑ i ∈ Finset.range samples,
    let p1 := cubicBezierPoint curve (i * dt)
    let p2 := cubicBezierPoint curve ((i + 1) * dt)
    let dx := p2.x - p1.x
    let dy := p2.y - p1.y
    Real.sqrt (dx * dx + dy * dy)

/-- `quadraticBezierArcLength` from `core/src/bezier.ts`. -/
noncomputable def quadraticBezierArcLength (curve : QuadraticBezierCurve) (samples : ℕ) : ℝ :=
  let dt : ℝ := 1 / samples
  ∑ i ∈ Finset.range samples,
    let p1 := quadraticBezierPoint curve (i * dt)
    let p2 := quadraticBezierPoint curve ((i + 1) * dt)
    let dx := p2.x - p1.x
    let dy := p2.y - p1.y
    Real.sqrt (dx * dx + dy * dy)

/-- `bezierArcLength` from `core/src/bezier.ts`. -/
noncomputable def bezierArcLength (curve : BezierCurve) (samples : ℕ) : ℝ :=
  match curve with
  | .cubic c => cubicBezierArcLength c samples
  | .quad q => quadraticBezierArcLength q samples

/-- `splitCubicBezier` from `core/src/bezier.ts`, exactly as written in the
source (including its choice of interior points). -/
def splitCubicBezier (curve : CubicBezierCurve) (t : ℝ) :
    CubicBezierCurve × CubicBezierCurve :=
  let mt := 1 - t
  let p1 : Point := { x := mt * curve.start.x + t * curve.control1.x
                      y := mt * curve.start.y + t * curve.control1.y }
  let p2 : Point := { x := mt * curve.control1.x + t * curve.control2.x
                      y := mt * curve.control1.y + t * curve.control2.y }
  let p3 : Point := { x := mt * curve.control2.x + t * curve.end.x
                      y := mt * curve.control2.y + t * curve.end.y }
  let p4 : Point := { x := mt * p2.x + t * p3.x
                      y := mt * p2.y + t * p3.y }
  let p5 : Point := { x := mt * p3.x + t * curve.end.x
                      y := mt * p3.y + t * curve.end.y }
  ({ start := curve.start, control1 := p1, control2 := p4, «end» := p5 },
   { start := p5, control1 := p3, control2 := p2, «end» := curve.end })

/-! ## JavaScript numeric primitives

`Math.floor` is `Int.floor`; the JS `%` operator on numbers is the
truncated remainder (sign of the dividend). -/

/-- JS truncation toward zero of a real number. -/
noncomputable def jsTrunc (x : ℝ) : ℤ := if x < 0 then ⌈x⌉ else ⌊x⌋

/-- The JS `%` operator on (finite, nonzero-divisor) numbers:
`a - b * trunc(a / b)`. -/
noncomputable def jsMod (a b : ℝ) : ℝ := a - b * jsTrunc (a / b)

/-! ## Easing (`core/src/easing.ts`) -/

/-- `linear` from `core/src/easing.ts`. -/
def linear (t : ℝ) : ℝ := t

/-- `easeInOutCubic` from `core/src/easing.ts`. -/
noncomputable def easeInOutCubic (t : ℝ) : ℝ :=
  if t < 0.5 then 4 * t * t * t else 1 - (-2 * t + 2) ^ 3 / 2

/-- The local helper `cubicBezierPoint(t, p0, p1, p2, p3)` of
`core/src/easing.ts` (one-dimensional Bernstein evaluation). -/
noncomputable def easingCubicBezierPoint (t p0 p1 p2 p3 : ℝ) : ℝ :=
  let mt := 1 - t
  mt * mt * mt * p0 + 3 * mt * mt * t * p1 + 3 * mt * t * t * p2 + t * t * t * p3

/-- The bisection loop of `cubicBezier` from `core/src/easing.ts`.  The
source iterates `while (right - left > 1e-6)`; starting from the interval
`[0, 1]` the width halves exactly each pass, so the loop runs exactly 20
times and a fuel of 64 makes the Lean function behave identically. -/
noncomputable def cubicBezierSearch (p1x p2x t : ℝ) : ℕ → ℝ → ℝ → ℝ
  | 0, left, _ => left
  | fuel + 1, left, right =>
    if right - left > 1e-6 then
      let mid := (left + right) / 2
      let x := easingCubicBezierPoint mid 0 p1x p2x 1
      if x < t then cubicBezierSearch p1x p2x t fuel mid right
      else cubicBezierSearch p1x p2x t fuel left mid
    else left

/-- `cubicBezier` from `core/src/easing.ts`: solve `x(s) = t` by bisection
on `[0, 1]`, then evaluate `y` at the found parameter. -/
noncomputable def cubicBezier (t p1x p1y p2x p2y : ℝ) : ℝ :=
  easingCubicBezierPoint (cubicBezierSearch p1x p2x t 64 0 1) 0 p1y p2y 1

/-- `EasingFunction` from `core/src/types.ts` as handled at runtime by
`applyEasing`: either a name (any string reaches the `switch`) or an array
of numbers (the length-4 check is performed dynamically). -/
inductive EasingFunction where
  | name (s : String)
  | bezier (args : List ℝ)

/-- `applyEasing` from `core/src/easing.ts`. -/
noncomputable def applyEasing (t : ℝ) (easing : EasingFunction) : ℝ :=
  match easing with
  | .name s =>
    if s = "linear" then linear t
    else if s = "easeInOutCubic" then easeInOutCubic t
    else linear t
  | .bezier args =>
    if args.length = 4 then
      cubicBezier t (args.getD 0 0) (args.getD 1 0) (args.getD 2 0) (args.getD 3 0)
    else linear t

/-! ## Timeline (`core/src/timeline.ts`) -/

/-- `Direction` from `core/src/types.ts`. -/
inductive Direction where
  | forward
  | reverse
  | yoyo
deriving DecidableEq

/-- `TimelineState` from `core/src/timeline.ts`.  `loopCount` is a JS
number holding `Math.floor` results, modelled as a real. -/
structure TimelineState where
  startTime : ℝ
  currentTime : ℝ
  duration : ℝ
  loop : Bool
  direction : Direction
  isPlaying : Bool
  isComplete : Bool
  loopCount : ℝ

/-- `stopTimeline` from `core/src/timeline.ts`. -/
def stopTimeline (timeline : TimelineState) : TimelineState :=
  { timeline with isPlaying := false }

/-- `resetTimeline` from `core/src/timeline.ts`. -/
def resetTimeline (timeline : TimelineState) : TimelineState :=
  { timeline with currentTime := timeline.startTime, isComplete := false, loopCount := 0 }

/-- The direction remapping switch shared by `updateTimeline` and
`getTimelineProgress` in `core/src/timeline.ts`. -/
noncomputable def applyDirection (direction : Direction) (progress : ℝ) : ℝ :=
  match direction with
  | .reverse => 1 - progress
  | .yoyo =>
    let cycle : ℤ := ⌊progress * 2⌋
    if cycle % 2 = 0 then progress * 2 else 2 - progress * 2
  | .forward => progress

/-- `updateTimeline` from `core/src/timeline.ts`.  The local `progress`
computed in the source (including the direction switch) is dead code —
the returned record only updates `currentTime`, `isComplete` and
`loopCount` — so it is not reproduced here. -/
noncomputable def updateTimeline (timeline : TimelineState) (currentTime : ℝ) : TimelineState :=
  if timeline.isPlaying then
    let elapsed := currentTime - timeline.startTime
    let totalDuration := timeline.duration
    if timeline.loop then
      let cycleDuration := totalDuration
      { timeline with
          currentTime := currentTime
          isComplete := false
          loopCount := (⌊elapsed / cycleDuration⌋ : ℤ) }
    else
      { timeline with
          currentTime := currentTime
          isComplete := totalDuration ≤ elapsed }
  else timeline

/-- `getTimelineProgress` from `core/src/timeline.ts`. -/
noncomputable def getTimelineProgress (timeline : TimelineState)
    (easing : Option EasingFunction) : ℝ :=
  if timeline.isPlaying then
    let elapsed := timeline.currentTime - timeline.startTime
    let totalDuration := timeline.duration
    let progress : ℝ :=
      if timeline.loop then jsMod elapsed totalDuration / totalDuration
      else min (elapsed / totalDuration) 1
    let progress := applyDirection timeline.direction progress
    let progress := match easing with
      | some e => applyEasing progress e
      | none => progress
    max 0 (min 1 progress)
  else 0

/-! ## Look-up tables (`core/src/bezier.ts`) -/

/-- `LUTEntry` from `core/src/types.ts`. -/
structure LUTEntry where
  t : ℝ
  point : Point
  length : ℝ

/-- `PathLUT` from `core/src/types.ts`. -/
structure PathLUT where
  entries : List LUTEntry
  totalLength : ℝ
  resolution : ℝ

/-- One chord of the LUT sampling loop in `createBezierLUT`. -/
noncomputable def lutChord (curve : BezierCurve) (dt : ℝ) (j : ℕ) : ℝ :=
  let point := bezierPoint curve (j * dt)
  let nextPoint := bezierPoint curve ((j + 1) * dt)
  let dx := nextPoint.x - point.x
  let dy := nextPoint.y - point.y
  Real.sqrt (dx * dx + dy * dy)

/-- `createBezierLUT` from `core/src/bezier.ts`.  `numSamples` is
`Math.max(10, Math.ceil(bezierArcLength(curve) * resolution))`; for a
non-positive product both `Math.ceil` and `Nat.ceil` are dominated by the
`max` with 10, so `⌈⌉₊` is faithful.  Entry `i` carries the cumulative
chord length of the first `i` sampling steps, exactly as the running
`totalLength` accumulator does in the source. -/
noncomputable def createBezierLUT (curve : BezierCurve) (resolution : ℝ) : PathLUT :=
  let numSamples : ℕ := max 10 ⌈bezierArcLength curve 10 * resolution⌉₊
  let dt : ℝ := 1 / numSamples
  let cum : ℕ → ℝ := fun i => ∑ j ∈ Finset.range i, lutChord curve dt j
  { entries := (List.range (numSamples + 1)).map fun (i : ℕ) =>
      { t := (i : ℝ) * dt, point := bezierPoint curve ((i : ℝ) * dt), length := cum i }
    totalLength := cum numSamples
    resolution := resolution }

/-- The `while (left < right)` binary-search loop of `lengthToParameter`.
Indices are naturals; the source's `Math.floor((left + right) / 2)` on
non-negative indices is natural division by 2.  The out-of-bounds default
is never reached for the index ranges the source produces. -/
noncomputable def lutSearch (entries : List LUTEntry) (targetLength : ℝ)
    (left right : ℕ) : ℕ :=
  if left < right then
    let mid := (left + right) / 2
    let entry := entries.getD mid ⟨0, ⟨0, 0⟩, 0⟩
    if entry.length < targetLength then lutSearch entries targetLength (mid + 1) right
    else lutSearch entries targetLength left mid
  else left
termination_by right - left
decreasing_by
  · omega
  · omega

/-- `lengthToParameter` from `core/src/bezier.ts`.  In the source, when the
loop leaves `left` at `0` (or the entry list is empty), `entries[left - 1]`
is `undefined` and the `!entry1 || !entry2` check returns `0`; that is the
`left = 0` / lookup-failure branch here. -/
noncomputable def lengthToParameter (lut : PathLUT) (targetLength : ℝ) : ℝ :=
  if targetLength ≤ 0 then 0
  else if lut.totalLength ≤ targetLength then 1
  else
    let left := lutSearch lut.entries targetLength 0 (lut.entries.length - 1)
    if left = 0 then 0
    else
      match lut.entries.get? (left - 1), lut.entries.get? left with
      | some entry1, some entry2 =>
        let lengthDiff := entry2.length - entry1.length
        if lengthDiff = 0 then entry1.t
        else entry1.t + ((targetLength - entry1.length) / lengthDiff) * (entry2.t - entry1.t)
      | _, _ => 0

/-! ## SVG path parser (`parser-svg/src/svg-parser.ts`)

The tokenizer works on `List Char`.  Numeric tokens are parsed into `ℚ`
(JS `parseFloat` on decimal notation; IEEE infinities and NaN coordinates
are outside the real-number model) and cast into `ℝ` for the geometric
phase. -/

/-- Segment kinds, the `type` field of `PathSegment` in `core/src/types.ts`. -/
inductive SegType where
  | M
  | L
  | C
  | Q
  | Z
deriving DecidableEq

/-- `PathSegment` from `core/src/types.ts`. -/
structure PathSegment where
  type : SegType
  points : List Point
  curve : Option BezierCurve

/-- The `bounds` record of `PathData` from `core/src/types.ts`. -/
structure Bounds where
  minX : ℝ
  minY : ℝ
  maxX : ℝ
  maxY : ℝ

/-- `PathData` from `core/src/types.ts`. -/
structure PathData where
  segments : List PathSegment
  totalLength : ℝ
  bounds : Bounds

/-- The command letters of the tokenizer regex
`/([MLHVCSQTAZmlhvcsqtaz])([^MLHVCSQTAZmlhvcsqtaz]*)/g`. -/
def isCommandChar (c : Char) : Bool :=
  decide (c ∈ ['M', 'L', 'H', 'V', 'C', 'S', 'Q', 'T', 'A', 'Z',
               'm', 'l', 'h', 'v', 'c', 's', 'q', 't', 'a', 'z'])

/-- ASCII whitespace as matched by JS `\s` and `String.prototype.trim`
(Unicode space classes are outside the model). -/
def isJsWhitespace (c : Char) : Bool :=
  decide (c ∈ [' ', '\t', '\n', '\r', Char.ofNat 11, Char.ofNat 12])

/-- Separator characters of the argument-splitting regex `/[\s,]+/`. -/
def isSepChar (c : Char) : Bool := isJsWhitespace c || c = ','

theorem length_dropWhile_le {α : Type} (p : α → Bool) (l : List α) :
    (l.dropWhile p).length ≤ l.length := by
  induction l with
  | nil => simp
  | cons a l ih => by_cases h : p a <;> simp [List.dropWhile, h] <;> omega

/-- The `regex.exec` scan of `tokenizePath`: skip characters until a
command letter, then capture it together with the run of following
non-command characters. -/
def scanCommands : List Char → List (Char × List Char)
  | [] => []
  | c :: rest =>
    if isCommandChar c then
      (c, rest.takeWhile fun d => !isCommandChar d) ::
        scanCommands (rest.dropWhile fun d => !isCommandChar d)
    else scanCommands rest
termination_by l => l.length
decreasing_by
  · have := length_dropWhile_le (fun d => !isCommandChar d) rest
    simp only [List.length_cons]
    omega
  · simp only [List.length_cons]; omega

/-- `String.prototype.trim` on a character list (ASCII whitespace). -/
def trimChars (l : List Char) : List Char :=
  ((l.dropWhile isJsWhitespace).reverse.dropWhile isJsWhitespace).reverse

/-- Character scan behind `String.prototype.split(/[\s,]+/)`: `tok` is
the (reversed) piece being collected, `prevSep` records whether the
previous character belonged to a separator run (so the run is collapsed
into a single split point). -/
def splitSepRunsAux : List Char → Bool → List Char → List (List Char)
  | [], _, tok => [tok.reverse]
  | c :: rest, prevSep, tok =>
    if isSepChar c then
      if prevSep then splitSepRunsAux rest true tok
      else tok.reverse :: splitSepRunsAux rest true []
    else splitSepRunsAux rest false (c :: tok)

/-- `String.prototype.split(/[\s,]+/)`: pieces between maximal separator
runs; a leading or trailing separator run produces an empty piece, just as
in JS. -/
def splitSepRuns (l : List Char) : List (List Char) :=
  splitSepRunsAux l false []

/-- Digit run to natural number. -/
def digitsToNat (l : List Char) : ℕ :=
  l.foldl (fun n c => 10 * n + (c.toNat - 48)) 0

/-- The optional exponent part of a JS float literal; an `e` not followed
by digits is ignored (JS `parseFloat("1e")` is `1`). -/
def parseExp (l : List Char) : ℤ :=
  let (esign, l1) : ℤ × List Char :=
    match l with
    | '-' :: r => (-1, r)
    | '+' :: r => (1, r)
    | _ => (1, l)
  let ds := l1.takeWhile Char.isDigit
  if ds.isEmpty then 0 else esign * digitsToNat ds

/-- JS `parseFloat` on decimal notation: optional sign, digits with an
optional fractional part, optional exponent; trailing junk is ignored;
`none` models `NaN` (no numeric prefix at all). -/
def jsParseFloat (l : List Char) : Option ℚ :=
  let l1 := l.dropWhile isJsWhitespace
  let (sign, l2) : ℚ × List Char :=
    match l1 with
    | '-' :: r => (-1, r)
    | '+' :: r => (1, r)
    | _ => (1, l1)
  let intDigits := l2.takeWhile Char.isDigit
  let l3 := l2.dropWhile Char.isDigit
  let (fracDigits, l4) : List Char × List Char :=
    match l3 with
    | '.' :: r => (r.takeWhile Char.isDigit, r.dropWhile Char.isDigit)
    | _ => ([], l3)
  if intDigits.isEmpty ∧ fracDigits.isEmpty then none
  else
    let mantissa : ℚ := (digitsToNat intDigits : ℚ) +
      (digitsToNat fracDigits : ℚ) / 10 ^ fracDigits.length
    let exp : ℤ :=
      match l4 with
      | 'e' :: r => parseExp r
      | 'E' :: r => parseExp r
      | _ => 0
    some (sign * mantissa * 10 ^ exp)

/-- One argument token: `isNaN(num) ? 0 : num` in the tokenizer. -/
def parseArgToken (l : List Char) : ℚ := (jsParseFloat l).getD 0

/-- `tokenizePath` from `parser-svg/src/svg-parser.ts`, at the exact
rational level: command letter plus parsed numeric arguments.  A command
with an empty trimmed argument string is kept only if it is a `z`/`Z`. -/
def tokenizePathQ (l : List Char) : List (Char × List ℚ) :=
  (scanCommands l).filterMap fun cmd =>
    let argsString := trimChars cmd.2
    if !argsString.isEmpty then
      some (cmd.1, (splitSepRuns argsString).map parseArgToken)
    else if cmd.1.toUpper = 'Z' then some (cmd.1, [])
    else none

/-- `tokenizePath` with arguments cast into the real-number model. -/
noncomputable def tokenizePath (s : String) : List (Char × List ℝ) :=
  (tokenizePathQ s.toList).map fun cmd => (cmd.1, cmd.2.map fun q => (q : ℝ))

/-- The `for (let i = 0; i < args.length; i += n)` grouping of command
arguments: chunks of at most `n` values.  The source reads missing
arguments of an incomplete final group as `undefined` (giving NaN
coordinates); NaN is outside the real-number model and such missing
arguments are read as `0` via `List.getD`. -/
def chunks {α : Type} (n : ℕ) : List α → List (List α)
  | [] => []
  | a :: rest =>
    match n with
    | 0 => []
    | n + 1 => (a :: rest).take (n + 1) :: chunks (n + 1) (rest.drop n)
termination_by l => l.length
decreasing_by
  have := List.length_drop n rest
  simp only [List.length_cons]
  omega

/-- Parser state threaded across commands: `currentPoint` and
`lastControlPoint` from `parsePathData`. -/
structure ParseState where
  current : Point
  lastControl : Option Point

/-- One `command` iteration of the `parsePathData` loop: returns the new
state and the segments pushed by this command. -/
noncomputable def processCommand (st : ParseState) (cmd : Char × List ℝ) :
    ParseState × List PathSegment :=
  let ty := cmd.1
  let args := cmd.2
  let upperType := ty.toUpper
  let relative := ty ≠ upperType
  match upperType with
  | 'M' =>
    ((chunks 2 args).enum.foldl (fun (acc : ParseState × List PathSegment) ich =>
      let x := ich.2.getD 0 0
      let y := ich.2.getD 1 0
      let point : Point := if relative
        then ⟨acc.1.current.x + x, acc.1.current.y + y⟩ else ⟨x, y⟩
      (⟨point, none⟩,
       acc.2 ++ [⟨if ich.1 = 0 then .M else .L, [point], none⟩])) (st, []))
  | 'L' =>
    ((chunks 2 args).foldl (fun (acc : ParseState × List PathSegment) ch =>
      let x := ch.getD 0 0
      let y := ch.getD 1 0
      let point : Point := if relative
        then ⟨acc.1.current.x + x, acc.1.current.y + y⟩ else ⟨x, y⟩
      (⟨point, none⟩, acc.2 ++ [⟨.L, [point], none⟩])) (st, []))
  | 'H' =>
    ((chunks 1 args).foldl (fun (acc : ParseState × List PathSegment) ch =>
      let x := ch.getD 0 0
      let point : Point := if relative
        then ⟨acc.1.current.x + x, acc.1.current.y⟩ else ⟨x, acc.1.current.y⟩
      (⟨point, none⟩, acc.2 ++ [⟨.L, [point], none⟩])) (st, []))
  | 'V' =>
    ((chunks 1 args).foldl (fun (acc : ParseState × List PathSegment) ch =>
      let y := ch.getD 0 0
      let point : Point := if relative
        then ⟨acc.1.current.x, acc.1.current.y + y⟩ else ⟨acc.1.current.x, y⟩
      (⟨point, none⟩, acc.2 ++ [⟨.L, [point], none⟩])) (st, []))
  | 'C' =>
    ((chunks 6 args).foldl (fun (acc : ParseState × List PathSegment) ch =>
      let cur := acc.1.current
      let cp1x := ch.getD 0 0
      let cp1y := ch.getD 1 0
      let cp2x := ch.getD 2 0
      let cp2y := ch.getD 3 0
      let x := ch.getD 4 0
      let y := ch.getD 5 0
      let control1 : Point := if relative then ⟨cur.x + cp1x, cur.y + cp1y⟩ else ⟨cp1x, cp1y⟩
      let control2 : Point := if relative then ⟨cur.x + cp2x, cur.y + cp2y⟩ else ⟨cp2x, cp2y⟩
      let e : Point := if relative then ⟨cur.x + x, cur.y + y⟩ else ⟨x, y⟩
      let curve : CubicBezierCurve := ⟨cur, control1, control2, e⟩
      (⟨e, some control2⟩, acc.2 ++ [⟨.C, [e], some (.cubic curve)⟩])) (st, []))
  | 'S' =>
    ((chunks 4 args).foldl (fun (acc : ParseState × List PathSegment) ch =>
      let cur := acc.1.current
      let cp2x := ch.getD 0 0
      let cp2y := ch.getD 1 0
      let x := ch.getD 2 0
      let y := ch.getD 3 0
      let control1 : Point :=
        match acc.1.lastControl with
        | some lc => ⟨2 * cur.x - lc.x, 2 * cur.y - lc.y⟩
        | none => cur
      let control2 : Point := if relative then ⟨cur.x + cp2x, cur.y + cp2y⟩ else ⟨cp2x, cp2y⟩
      let e : Point := if relative then ⟨cur.x + x, cur.y + y⟩ else ⟨x, y⟩
      let curve : CubicBezierCurve := ⟨cur, control1, control2, e⟩
      (⟨e, some control2⟩, acc.2 ++ [⟨.C, [e], some (.cubic curve)⟩])) (st, []))
  | 'Q' =>
    ((chunks 4 args).foldl (fun (acc : ParseState × List PathSegment) ch =>
      let cur := acc.1.current
      let cpx := ch.getD 0 0
      let cpy := ch.getD 1 0
      let x := ch.getD 2 0
      let y := ch.getD 3 0
      let control : Point := if relative then ⟨cur.x + cpx, cur.y + cpy⟩ else ⟨cpx, cpy⟩
      let e : Point := if relative then ⟨cur.x + x, cur.y + y⟩ else ⟨x, y⟩
      let curve : QuadraticBezierCurve := ⟨cur, control, e⟩
      (⟨e, some control⟩, acc.2 ++ [⟨.Q, [e], some (.quad curve)⟩])) (st, []))
  | 'T' =>
    ((chunks 2 args).foldl (fun (acc : ParseState × List PathSegment) ch =>
      let cur := acc.1.current
      let x := ch.getD 0 0
      let y := ch.getD 1 0
      let control : Point :=
        match acc.1.lastControl with
        | some lc => ⟨2 * cur.x - lc.x, 2 * cur.y - lc.y⟩
        | none => cur
      let e : Point := if relative then ⟨cur.x + x, cur.y + y⟩ else ⟨x, y⟩
      let curve : QuadraticBezierCurve := ⟨cur, control, e⟩
      (⟨e, some control⟩, acc.2 ++ [⟨.Q, [e], some (.quad curve)⟩])) (st, []))
  | 'A' =>
    ((chunks 7 args).foldl (fun (acc : ParseState × List PathSegment) ch =>
      let cur := acc.1.current
      let x := ch.getD 5 0
      let y := ch.getD 6 0
      let e : Point := if relative then ⟨cur.x + x, cur.y + y⟩ else ⟨x, y⟩
      (⟨e, none⟩, acc.2 ++ [⟨.L, [e], none⟩])) (st, []))
  | 'Z' => (⟨st.current, none⟩, [⟨.Z, [], none⟩])
  | _ => (st, [])

/-- `parsePathData` from `parser-svg/src/svg-parser.ts`: fold the command
stream from the initial state `currentPoint = (0,0)`,
`lastControlPoint = null`. -/
noncomputable def parsePathData (pathString : String) : List PathSegment :=
  ((tokenizePath pathString).foldl (fun (acc : ParseState × List PathSegment) cmd =>
    let step := processCommand acc.1 cmd
    (step.1, acc.2 ++ step.2)) (⟨⟨0, 0⟩, none⟩, [])).2

/-- The quadratic-to-cubic degree elevation performed inline by
`normalizeToCubicBeziers`. -/
noncomputable def elevateQuadratic (quad : QuadraticBezierCurve) : CubicBezierCurve :=
  { start := quad.start
    control1 := ⟨quad.start.x + (2 / 3) * (quad.control.x - quad.start.x),
                 quad.start.y + (2 / 3) * (quad.control.y - quad.start.y)⟩
    control2 := ⟨quad.end.x + (2 / 3) * (quad.control.x - quad.end.x),
                 quad.end.y + (2 / 3) * (quad.control.y - quad.end.y)⟩
    «end» := quad.end }

/-- `normalizeToCubicBeziers` from `parser-svg/src/svg-parser.ts`: rewrite
every `Q` segment carrying a quadratic curve into the elevated cubic;
every other segment is passed through unchanged. -/
noncomputable def normalizeToCubicBeziers (segments : List PathSegment) : List PathSegment :=
  segments.map fun segment =>
    match segment.type, segment.curve with
    | .Q, some (.quad quad) =>
      ⟨.C, [quad.end], some (.cubic (elevateQuadratic quad))⟩
    | _, _ => segment

/-- `Math.min` folded from the initial `Infinity`: `none` plays the role
of `Infinity` (all coordinates of the model are finite reals). -/
noncomputable def jsMinO (acc : Option ℝ) (x : ℝ) : Option ℝ :=
  some (match acc with | none => x | some m => min m x)

/-- `Math.max` folded from the initial `-Infinity`. -/
noncomputable def jsMaxO (acc : Option ℝ) (x : ℝ) : Option ℝ :=
  some (match acc with | none => x | some m => max m x)

/-- Bounds accumulator: `(minX, minY, maxX, maxY)`. -/
def BoundsAcc : Type := (Option ℝ × Option ℝ) × (Option ℝ × Option ℝ)

/-- One segment of the `calculatePathBounds` loop. -/
noncomputable def boundsStep (acc : BoundsAcc) (segment : PathSegment) : BoundsAcc :=
  let afterPoints := segment.points.foldl
    (fun (a : BoundsAcc) p =>
      ((jsMinO a.1.1 p.x, jsMinO a.1.2 p.y), (jsMaxO a.2.1 p.x, jsMaxO a.2.2 p.y))) acc
  match segment.curve with
  | some (.cubic c) =>
    ((jsMinO (jsMinO afterPoints.1.1 c.control1.x) c.control2.x,
      jsMinO (jsMinO afterPoints.1.2 c.control1.y) c.control2.y),
     (jsMaxO (jsMaxO afterPoints.2.1 c.control1.x) c.control2.x,
      jsMaxO (jsMaxO afterPoints.2.2 c.control1.y) c.control2.y))
  | some (.quad q) =>
    ((jsMinO afterPoints.1.1 q.control.x, jsMinO afterPoints.1.2 q.control.y),
     (jsMaxO afterPoints.2.1 q.control.x, jsMaxO afterPoints.2.2 q.control.y))
  | none => afterPoints

/-- `calculatePathBounds` from `parser-svg/src/svg-parser.ts`; a `none`
accumulator (`±Infinity` survived the whole walk) degenerates to `0`. -/
noncomputable def calculatePathBounds (segments : List PathSegment) : Bounds :=
  let acc := segments.foldl boundsStep ((none, none), (none, none))
  { minX := acc.1.1.getD 0
    minY := acc.1.2.getD 0
    maxX := acc.2.1.getD 0
    maxY := acc.2.2.getD 0 }

/-- `createPathData` from `parser-svg/src/svg-parser.ts`: parse, normalize,
bound, and sum straight-line distances between consecutive segment anchor
points (`segment.points[0]`, skipping point-less segments). -/
noncomputable def createPathData (pathString : String) : PathData :=
  let segments := parsePathData pathString
  let normalizedSegments := normalizeToCubicBeziers segments
  let bounds := calculatePathBounds normalizedSegments
  let totalLength := (normalizedSegments.foldl
    (fun (acc : ℝ × Option Point) segment =>
      match segment.points with
      | [] => acc
      | point :: _ =>
        (acc.1 + (match acc.2 with
          | none => 0
          | some currentPoint =>
            let dx := point.x - currentPoint.x
            let dy := point.y - currentPoint.y
            Real.sqrt (dx * dx + dy * dy)),
         some point)) (0, none)).1
  { segments := normalizedSegments, totalLength := totalLength, bounds := bounds }

/-! ## Chord sums viewed in the complex plane

For reasoning about the chord-sum arc-length approximations, a `Point` is
read as a complex number, whose norm is exactly the
`Math.sqrt(dx*dx + dy*dy)` of the source. -/

/-- A point as a complex number. -/
def toC (p : Point) : ℂ := ⟨p.x, p.y⟩

/-- Chord sum of `n` uniformly spaced parameter steps of a plane curve
`f`, the common shape of both arc-length loops in `core/src/bezier.ts`. -/
noncomputable def chordSum (f : ℝ → ℂ) (n : ℕ) : ℝ :=
  ∑ i ∈ Finset.range n,
    Complex.abs (f (((i : ℝ) + 1) * (1 / (n : ℝ))) - f ((i : ℝ) * (1 / (n : ℝ))))

end CliTrace

namespace CliTrace

/-- Shared: a source chord `Math.sqrt(dx*dx + dy*dy)` is the complex norm. -/
theorem sqrt_as_abs (dx dy : ℝ) : Real.sqrt (dx * dx + dy * dy) = Complex.abs ⟨dx, dy⟩ := by
  rw [Complex.abs_apply, Complex.normSq_mk]

/-- Claim C10: a timeline that is not playing reports progress 0, and
`stopTimeline` only clears `isPlaying`, so progress drops to 0 after a
stop, whatever the elapsed time, direction, loop flag or easing. -/
theorem getTimelineProgress_stopped (tl : TimelineState) (e : Option EasingFunction)
    (h : tl.isPlaying = false) :
    getTimelineProgress tl e = 0 ∧
    (stopTimeline tl).startTime = tl.startTime ∧
    (stopTimeline tl).currentTime = tl.currentTime ∧
    (stopTimeline tl).isPlaying = false ∧
    getTimelineProgress (stopTimeline tl) e = 0 := by
  refine ⟨?_, rfl, rfl, rfl, ?_⟩ <;> simp [getTimelineProgress, stopTimeline, h]

/-- Witness for C10 at a concrete mid-flight stopped timeline. -/
theorem getTimelineProgress_stopped_witness :
    (⟨0, 50, 100, false, .forward, false, false, 0⟩ : TimelineState).isPlaying = false ∧
    getTimelineProgress (⟨0, 50, 100, false, .forward, false, false, 0⟩ : TimelineState)
      (some (.name "linear")) = 0 :=
  ⟨rfl, (getTimelineProgress_stopped _ _ rfl).1⟩

/-- Claim C9: `applyEasing` falls back to the identity easing on any
unrecognized name and on any array whose length is not 4. -/
theorem applyEasing_fallback (t : ℝ) (s : String) (args : List ℝ)
    (hs1 : s ≠ "linear") (hs2 : s ≠ "easeInOutCubic") (hlen : args.length ≠ 4) :
    applyEasing t (.name s) = t ∧ applyEasing t (.bezier args) = t := by
  constructor <;> simp [applyEasing, hs1, hs2, hlen, linear]

/-- Witness for C9 at the name `"nonexistent-name"` and the empty tuple. -/
theorem applyEasing_fallback_witness :
    ("nonexistent-name" ≠ "linear") ∧ ("nonexistent-name" ≠ "easeInOutCubic") ∧
    (([] : List ℝ).length ≠ 4) ∧
    applyEasing 0.3 (.name "nonexistent-name") = 0.3 ∧
    applyEasing 0.3 (.bezier []) = 0.3 := by
  refine ⟨by decide, by decide, by decide, ?_, ?_⟩
  · exact (applyEasing_fallback 0.3 "nonexistent-name" [] (by decide) (by decide) (by decide)).1
  · exact (applyEasing_fallback 0.3 "nonexistent-name" [] (by decide) (by decide) (by decide)).2

/-- Claim C2, counterexample: `bezierPoint` does not clamp; at `t = 2` on the
cubic with all points at the origin except `end = (1,0)` it extrapolates
to `x = 8`, not `end`. -/
theorem bezierPoint_no_clamp :
    bezierPoint (.cubic ⟨⟨0, 0⟩, ⟨0, 0⟩, ⟨0, 0⟩, ⟨1, 0⟩⟩) 2 ≠
      bezierPoint (.cubic ⟨⟨0, 0⟩, ⟨0, 0⟩, ⟨0, 0⟩, ⟨1, 0⟩⟩) (min 1 (max 0 (2 : ℝ))) := by
  intro h
  have hx := congrArg Point.x h
  norm_num [bezierPoint, cubicBezierPoint] at hx

/-- Claim C2, amended: the parameter is *not* clamped internally; evaluation
agrees with the clamped parameter exactly when `t` already lies in
`[0, 1]`, and the endpoints evaluate to `start` and `end`. -/
theorem bezierPoint_clamp_on_unit (curve : BezierCurve) (t : ℝ)
    (h0 : 0 ≤ t) (h1 : t ≤ 1) :
    bezierPoint curve t = bezierPoint curve (min 1 (max 0 t)) ∧
    bezierPoint curve 0 = curve.start ∧ bezierPoint curve 1 = curve.end := by
  have hmm : min 1 (max 0 t) = t := by rw [max_eq_right h0, min_eq_right h1]
  refine ⟨by rw [hmm], ?_, ?_⟩ <;>
    cases curve <;>
      (apply Point.ext_xy <;>
        simp [bezierPoint, cubicBezierPoint, quadraticBezierPoint,
          BezierCurve.start, BezierCurve.end] <;> ring)

/-- Witness for C2 amended at a concrete cubic and `t = 1/2`. -/
theorem bezierPoint_clamp_on_unit_witness :
    (0 : ℝ) ≤ 1 / 2 ∧ (1 / 2 : ℝ) ≤ 1 ∧
    (bezierPoint (.cubic ⟨⟨0, 0⟩, ⟨1, 2⟩, ⟨3, 4⟩, ⟨5, 6⟩⟩) (1 / 2) =
      bezierPoint (.cubic ⟨⟨0, 0⟩, ⟨1, 2⟩, ⟨3, 4⟩, ⟨5, 6⟩⟩) (min 1 (max 0 (1 / 2 : ℝ))) ∧
     bezierPoint (.cubic ⟨⟨0, 0⟩, ⟨1, 2⟩, ⟨3, 4⟩, ⟨5, 6⟩⟩) 0 =
       (BezierCurve.cubic ⟨⟨0, 0⟩, ⟨1, 2⟩, ⟨3, 4⟩, ⟨5, 6⟩⟩).start ∧
     bezierPoint (.cubic ⟨⟨0, 0⟩, ⟨1, 2⟩, ⟨3, 4⟩, ⟨5, 6⟩⟩) 1 =
       (BezierCurve.cubic ⟨⟨0, 0⟩, ⟨1, 2⟩, ⟨3, 4⟩, ⟨5, 6⟩⟩).end) :=
  ⟨by norm_num, by norm_num,
   bezierPoint_clamp_on_unit _ (1 / 2) (by norm_num) (by norm_num)⟩

/-- Claim C1, code-bug evaluation of `splitCubicBezier` at the collinear cubic
`(0,0) (1,0) (2,0) (3,0)` and `t = 1/2`: the code's first sub-curve ends
at `x = 11/4`, while the curve point at `t = 1/2` is `x = 3/2`; the
split point is not `cubicBezierPoint(curve, t)`. -/
theorem splitCubicBezier_split_point_wrong :
    ((splitCubicBezier ⟨⟨0, 0⟩, ⟨1, 0⟩, ⟨2, 0⟩, ⟨3, 0⟩⟩ (1 / 2)).1.end.x = 11 / 4) ∧
    ((cubicBezierPoint ⟨⟨0, 0⟩, ⟨1, 0⟩, ⟨2, 0⟩, ⟨3, 0⟩⟩ (1 / 2)).x = 3 / 2) ∧
    (splitCubicBezier ⟨⟨0, 0⟩, ⟨1, 0⟩, ⟨2, 0⟩, ⟨3, 0⟩⟩ (1 / 2)).1.end ≠
      cubicBezierPoint ⟨⟨0, 0⟩, ⟨1, 0⟩, ⟨2, 0⟩, ⟨3, 0⟩⟩ (1 / 2) := by
  refine ⟨by norm_num [splitCubicBezier], by norm_num [cubicBezierPoint], fun h => ?_⟩
  have hx := congrArg Point.x h
  norm_num [splitCubicBezier, cubicBezierPoint] at hx

/-- Claim C6: the quadratic-to-cubic rewrite of `normalizeToCubicBeziers` is
pointwise exact: the elevated cubic evaluates to the original quadratic at
every parameter. -/
theorem normalizeToCubicBeziers_pointwise (quad : QuadraticBezierCurve) (t : ℝ) :
    normalizeToCubicBeziers [⟨.Q, [quad.end], some (.quad quad)⟩] =
      [⟨.C, [quad.end], some (.cubic (elevateQuadratic quad))⟩] ∧
    cubicBezierPoint (elevateQuadratic quad) t = quadraticBezierPoint quad t := by
  refine ⟨by simp [normalizeToCubicBeziers], ?_⟩
  apply Point.ext_xy <;>
    simp [cubicBezierPoint, quadraticBezierPoint, elevateQuadratic] <;> ring

end CliTrace

namespace CliTrace

/-- Claim C5: for a playing, forward, positive-duration timeline observed at
`elapsed = duration`, `getTimelineProgress` (no easing) is exactly 1 when
not looping and exactly 0 when looping; and `updateTimeline` sets
`loopCount = ⌊elapsed / duration⌋` whenever looping. -/
theorem timeline_at_duration (tl : TimelineState)
    (hp : tl.isPlaying = true) (hdir : tl.direction = .forward)
    (hd : 0 < tl.duration) (he : tl.currentTime - tl.startTime = tl.duration) :
    getTimelineProgress tl none = (if tl.loop then 0 else 1) ∧
    (tl.loop = true → ∀ ct : ℝ,
      (updateTimeline tl ct).loopCount = ((⌊(ct - tl.startTime) / tl.duration⌋ : ℤ) : ℝ)) := by
  constructor
  · have hds : tl.duration / tl.duration = 1 := div_self (ne_of_gt hd)
    cases hl : tl.loop
    · simp [getTimelineProgress, hp, hdir, hl, he, applyDirection, hds]
    · have hmod : jsMod tl.duration tl.duration = 0 := by
        simp [jsMod, jsTrunc, hds]
      simp [getTimelineProgress, hp, hdir, hl, he, applyDirection, hmod]
  · intro hl ct
    simp [updateTimeline, hp, hl]

/-- Witness for C5 at a concrete looping timeline with duration 100
observed at time 100, with the update clock at 150. -/
theorem timeline_at_duration_witness :
    (⟨0, 100, 100, true, .forward, true, false, 0⟩ : TimelineState).isPlaying = true ∧
    (⟨0, 100, 100, true, .forward, true, false, 0⟩ : TimelineState).direction = .forward ∧
    (0 : ℝ) < 100 ∧ ((100 : ℝ) - 0 = 100) ∧
    getTimelineProgress (⟨0, 100, 100, true, .forward, true, false, 0⟩ : TimelineState) none =
      (if (⟨0, 100, 100, true, .forward, true, false, 0⟩ : TimelineState).loop then 0 else 1) ∧
    (updateTimeline (⟨0, 100, 100, true, .forward, true, false, 0⟩ : TimelineState) 150).loopCount =
      ((⌊((150 : ℝ) - 0) / 100⌋ : ℤ) : ℝ) :=
  ⟨rfl, rfl, by norm_num, by norm_num,
   (timeline_at_duration _ rfl rfl (by norm_num) (by norm_num)).1,
   (timeline_at_duration _ rfl rfl (by norm_num) (by norm_num)).2 rfl 150⟩

/-- Claim C3, counterexample: the LUT of the zero-length cubic (all four points
at the origin) has `totalLength = 0`, and `lengthToParameter` at
`targetLength = totalLength` returns 0, not 1, because the
`targetLength <= 0` guard fires first. -/
theorem lengthToParameter_degenerate_lut :
    (createBezierLUT (.cubic ⟨⟨0, 0⟩, ⟨0, 0⟩, ⟨0, 0⟩, ⟨0, 0⟩⟩) 1).totalLength = 0 ∧
    lengthToParameter (createBezierLUT (.cubic ⟨⟨0, 0⟩, ⟨0, 0⟩, ⟨0, 0⟩, ⟨0, 0⟩⟩) 1)
      (createBezierLUT (.cubic ⟨⟨0, 0⟩, ⟨0, 0⟩, ⟨0, 0⟩, ⟨0, 0⟩⟩) 1).totalLength = 0 ∧
    lengthToParameter (createBezierLUT (.cubic ⟨⟨0, 0⟩, ⟨0, 0⟩, ⟨0, 0⟩, ⟨0, 0⟩⟩) 1)
      (createBezierLUT (.cubic ⟨⟨0, 0⟩, ⟨0, 0⟩, ⟨0, 0⟩, ⟨0, 0⟩⟩) 1).totalLength ≠ 1 := by
  have hpt : ∀ t : ℝ, bezierPoint (.cubic ⟨⟨0, 0⟩, ⟨0, 0⟩, ⟨0, 0⟩, ⟨0, 0⟩⟩) t = ⟨0, 0⟩ := by
    intro t
    apply Point.ext_xy <;> simp [bezierPoint, cubicBezierPoint]
  have htot : (createBezierLUT (.cubic ⟨⟨0, 0⟩, ⟨0, 0⟩, ⟨0, 0⟩, ⟨0, 0⟩⟩) 1).totalLength = 0 := by
    simp only [createBezierLUT]
    apply Finset.sum_eq_zero
    intro j _
    simp [lutChord, hpt]
  refine ⟨htot, ?_, ?_⟩ <;> rw [htot] <;> simp [lengthToParameter]

/-- Claim C3, amended: `lengthToParameter` returns 0 whenever
`targetLength ≤ 0` (this guard has priority), and returns 1 whenever
`targetLength ≥ totalLength` *and* `targetLength > 0`; so both endpoint
identities hold for every LUT with positive total length, while the
degenerate zero-length LUT maps its total length to 0. -/
theorem lengthToParameter_guards (lut : PathLUT) (targetLength : ℝ) :
    (targetLength ≤ 0 → lengthToParameter lut targetLength = 0) ∧
    (0 < targetLength → lut.totalLength ≤ targetLength →
      lengthToParameter lut targetLength = 1) := by
  constructor
  · intro h
    simp [lengthToParameter, h]
  · intro h1 h2
    rw [lengthToParameter, if_neg (not_le.mpr h1), if_pos h2]

/-- Witness for C3 amended on a LUT with positive total length. -/
theorem lengthToParameter_guards_witness :
    ((-1 : ℝ) ≤ 0) ∧ ((0 : ℝ) < 5) ∧
    ((⟨[], 5, 1⟩ : PathLUT).totalLength ≤ 5) ∧
    lengthToParameter (⟨[], 5, 1⟩ : PathLUT) (-1) = 0 ∧
    lengthToParameter (⟨[], 5, 1⟩ : PathLUT) 5 = 1 :=
  ⟨by norm_num, by norm_num, by norm_num,
   (lengthToParameter_guards ⟨[], 5, 1⟩ (-1)).1 (by norm_num),
   (lengthToParameter_guards ⟨[], 5, 1⟩ 5).2 (by norm_num) (by norm_num)⟩

theorem sqrt_of_sq (a b : ℝ) (h : b = a ^ 2) (ha : 0 ≤ a) : Real.sqrt b = a := by
  rw [h]; exact Real.sqrt_sq ha


/-- The cubic arc-length loop is a chord sum in the complex plane. -/
theorem cubicBezierArcLength_eq_chordSum (c : CubicBezierCurve) (n : ℕ) :
    cubicBezierArcLength c n = chordSum (fun t => toC (cubicBezierPoint c t)) n := by
  simp only [cubicBezierArcLength, chordSum]
  apply Finset.sum_congr rfl
  intro i _
  rw [sqrt_as_abs]
  congr 1

/-- The quadratic arc-length loop is a chord sum in the complex plane. -/
theorem quadraticBezierArcLength_eq_chordSum (q : QuadraticBezierCurve) (n : ℕ) :
    quadraticBezierArcLength q n = chordSum (fun t => toC (quadraticBezierPoint q t)) n := by
  simp only [quadraticBezierArcLength, chordSum]
  apply Finset.sum_congr rfl
  intro i _
  rw [sqrt_as_abs]
  congr 1

/-- `bezierArcLength` as a chord sum of the dispatched evaluation. -/
theorem bezierArcLength_eq_chordSum (curve : BezierCurve) (n : ℕ) :
    bezierArcLength curve n = chordSum (fun t => toC (bezierPoint curve t)) n := by
  cases curve with
  | cubic c => simpa [bezierArcLength, bezierPoint] using cubicBezierArcLength_eq_chordSum c n
  | quad q => simpa [bezierArcLength, bezierPoint] using quadraticBezierArcLength_eq_chordSum q n

theorem sum_range_mul {M : Type} [AddCommMonoid M] (h : ℕ → M) (n k : ℕ) :
    ∑ m ∈ Finset.range (n * k), h m = ∑ i ∈ Finset.range n, ∑ j ∈ Finset.range k, h (i * k + j) := by
  induction n with
  | zero => simp
  | succ n ih => rw [Nat.succ_mul, Finset.sum_range_add, ih, Finset.sum_range_succ]

/-- One coarse chord is at most the sum of the `k` fine chords that
refine it (triangle inequality along the telescoping subdivision). -/
theorem chord_le_fine_chords (f : ℝ → ℂ) (n k i : ℕ) (hk : k ≠ 0) :
    Complex.abs (f (((i : ℝ) + 1) * (1 / (n : ℝ))) - f ((i : ℝ) * (1 / (n : ℝ)))) ≤
    ∑ j ∈ Finset.range k,
      Complex.abs (f ((((i * k + j : ℕ) : ℝ) + 1) * (1 / ((n * k : ℕ) : ℝ))) -
        f (((i * k + j : ℕ) : ℝ) * (1 / ((n * k : ℕ) : ℝ)))) := by
  have hkr : ((k : ℝ)) ≠ 0 := Nat.cast_ne_zero.mpr hk
  set g : ℕ → ℂ := fun j => f (((i * k + j : ℕ) : ℝ) * (1 / ((n * k : ℕ) : ℝ))) with hg
  have h0 : g 0 = f ((i : ℝ) * (1 / (n : ℝ))) := by
    simp only [hg]
    congr 1
    push_cast
    rw [mul_one_div, mul_one_div, add_zero, mul_div_mul_right _ _ hkr]
  have hlast : g k = f (((i : ℝ) + 1) * (1 / (n : ℝ))) := by
    simp only [hg]
    congr 1
    push_cast
    rw [mul_one_div, mul_one_div]
    rw [show (i : ℝ) * k + k = ((i : ℝ) + 1) * k by ring, mul_div_mul_right _ _ hkr]
  calc Complex.abs (f (((i : ℝ) + 1) * (1 / (n : ℝ))) - f ((i : ℝ) * (1 / (n : ℝ))))
      = ‖∑ j ∈ Finset.range k, (g (j + 1) - g j)‖ := by
        rw [Finset.sum_range_sub g k, h0, hlast, Complex.norm_eq_abs]
    _ ≤ ∑ j ∈ Finset.range k, ‖g (j + 1) - g j‖ := norm_sum_le _ _
    _ = ∑ j ∈ Finset.range k,
          Complex.abs (f ((((i * k + j : ℕ) : ℝ) + 1) * (1 / ((n * k : ℕ) : ℝ))) -
            f (((i * k + j : ℕ) : ℝ) * (1 / ((n * k : ℕ) : ℝ)))) := by
        apply Finset.sum_congr rfl
        intro j _
        rw [Complex.norm_eq_abs]
        congr 2
        simp only [hg]
        congr 1
        push_cast
        ring

/-- Refining a uniform chord partition (multiplying the sample count)
never decreases the chord sum. -/
theorem chordSum_le_refine (f : ℝ → ℂ) (n k : ℕ) (hk : 0 < k) :
    chordSum f n ≤ chordSum f (n * k) := by
  simp only [chordSum]
  rw [sum_range_mul]
  apply Finset.sum_le_sum
  intro i _
  exact chord_le_fine_chords f n k i (Nat.pos_iff_ne_zero.mp hk)

/-- Claim C7, counterexample: for the cubic `(0,0) (4,0) (4,0) (1,0)` (which
overshoots in `x` and doubles back) the 3-sample chord sum is *smaller*
than the 2-sample chord sum, refuting monotonicity in `n ≤ m`. -/
theorem bezierArcLength_not_monotone :
    bezierArcLength (.cubic ⟨⟨0, 0⟩, ⟨4, 0⟩, ⟨4, 0⟩, ⟨1, 0⟩⟩) 3 <
      bezierArcLength (.cubic ⟨⟨0, 0⟩, ⟨4, 0⟩, ⟨4, 0⟩, ⟨1, 0⟩⟩) 2 := by
  have h2 : cubicBezierArcLength ⟨⟨0, 0⟩, ⟨4, 0⟩, ⟨4, 0⟩, ⟨1, 0⟩⟩ 2 = 21 / 4 := by
    simp only [cubicBezierArcLength]
    norm_num [Finset.sum_range_succ, cubicBezierPoint]
    rw [sqrt_of_sq 25 625 (by norm_num) (by norm_num),
        sqrt_of_sq 17 289 (by norm_num) (by norm_num),
        sqrt_of_sq 8 64 (by norm_num) (by norm_num)]
    norm_num
  have h3 : cubicBezierArcLength ⟨⟨0, 0⟩, ⟨4, 0⟩, ⟨4, 0⟩, ⟨1, 0⟩⟩ 3 = 133 / 27 := by
    simp only [cubicBezierArcLength]
    norm_num [Finset.sum_range_succ, cubicBezierPoint]
    rw [sqrt_of_sq 73 5329 (by norm_num) (by norm_num),
        sqrt_of_sq 7 49 (by norm_num) (by norm_num),
        sqrt_of_sq 53 2809 (by norm_num) (by norm_num),
        sqrt_of_sq 27 729 (by norm_num) (by norm_num)]
    norm_num
  show cubicBezierArcLength _ 3 < cubicBezierArcLength _ 2
  rw [h2, h3]
  norm_num

/-- Claim C7, amended: the chord-sum arc length is monotone along refinements:
multiplying the (positive) sample count by any positive factor never
decreases `bezierArcLength`. -/
theorem bezierArcLength_refinement_mono (curve : BezierCurve) (n k : ℕ)
    (hn : 0 < n) (hk : 0 < k) :
    bezierArcLength curve n ≤ bezierArcLength curve (n * k) := by
  rw [bezierArcLength_eq_chordSum, bezierArcLength_eq_chordSum]
  exact chordSum_le_refine _ n k hk

/-- Witness for C7 amended: doubling 10 samples on a concrete cubic. -/
theorem bezierArcLength_refinement_mono_witness :
    0 < 10 ∧ 0 < 2 ∧
    bezierArcLength (.cubic ⟨⟨0, 0⟩, ⟨4, 0⟩, ⟨4, 0⟩, ⟨1, 0⟩⟩) 10 ≤
      bezierArcLength (.cubic ⟨⟨0, 0⟩, ⟨4, 0⟩, ⟨4, 0⟩, ⟨1, 0⟩⟩) (10 * 2) :=
  ⟨by norm_num, by norm_num,
   bezierArcLength_refinement_mono _ 10 2 (by norm_num) (by norm_num)⟩


theorem ws_not_command {c : Char} (h : isJsWhitespace c = true) : isCommandChar c = false := by
  simp only [isJsWhitespace, decide_eq_true_eq, List.mem_cons, List.not_mem_nil, or_false] at h
  rcases h with h | h | h | h | h | h <;> subst h <;> rfl

theorem scanCommands_eq_nil (l : List Char) (h : ∀ c ∈ l, isCommandChar c = false) :
    scanCommands l = [] := by
  induction l with
  | nil => rw [scanCommands]
  | cons a rest ih =>
    rw [scanCommands]
    have ha : isCommandChar a = false := h a (by simp)
    simp only [ha, Bool.false_eq_true, if_false]
    exact ih fun c hc => h c (by simp [hc])

/-- Claim C8: `createPathData` is total; a whitespace-only input yields the
empty segment list, zero total length and the degenerate bounds
`(0,0,0,0)`, and any token without a numeric prefix (`parseFloat` NaN)
is coerced to 0 by the tokenizer. -/
theorem createPathData_lenient (s : String) (tok : List Char)
    (hws : ∀ c ∈ s.toList, isJsWhitespace c = true)
    (hnan : jsParseFloat tok = none) :
    createPathData s = ⟨[], 0, ⟨0, 0, 0, 0⟩⟩ ∧ parseArgToken tok = 0 := by
  have hscan : scanCommands s.toList = [] :=
    scanCommands_eq_nil _ fun c hc => ws_not_command (hws c hc)
  have htokQ : tokenizePathQ s.toList = [] := by
    unfold tokenizePathQ
    rw [hscan]
    rfl
  have htok : tokenizePath s = [] := by
    unfold tokenizePath
    rw [htokQ]
    rfl
  have hparse : parsePathData s = [] := by
    unfold parsePathData
    rw [htok]
    rfl
  refine ⟨?_, by simp [parseArgToken, hnan]⟩
  simp [createPathData, hparse, normalizeToCubicBeziers, calculatePathBounds]

/-- Witness for C8 at the two-space input and the token `"abc"`. -/
theorem createPathData_lenient_witness :
    jsParseFloat "abc".toList = none ∧
    (createPathData "  " = ⟨[], 0, ⟨0, 0, 0, 0⟩⟩ ∧ parseArgToken "abc".toList = 0) :=
  ⟨by decide, createPathData_lenient "  " "abc".toList (by decide) (by decide)⟩

theorem tokenizePathQ_square :
    tokenizePathQ "M 0 0 L 10 0 L 10 10 Z".toList =
    [('M', [0, 0]), ('L', [10, 0]), ('L', [10, 10]), ('Z', [])] := by
  have h1 : scanCommands "M 0 0 L 10 0 L 10 10 Z".toList =
      [('M', [' ', '0', ' ', '0', ' ']), ('L', [' ', '1', '0', ' ', '0', ' ']),
       ('L', [' ', '1', '0', ' ', '1', '0', ' ']), ('Z', [])] := by
    simp +decide [scanCommands]
  have t1 : trimChars [' ', '0', ' ', '0', ' '] = ['0', ' ', '0'] := by decide
  have t2 : trimChars [' ', '1', '0', ' ', '0', ' '] = ['1', '0', ' ', '0'] := by decide
  have t3 : trimChars [' ', '1', '0', ' ', '1', '0', ' '] = ['1', '0', ' ', '1', '0'] := by decide
  have t4 : trimChars ([] : List Char) = [] := by decide
  have s1 : splitSepRuns ['0', ' ', '0'] = [['0'], ['0']] := by decide
  have s2 : splitSepRuns ['1', '0', ' ', '0'] = [['1', '0'], ['0']] := by decide
  have s3 : splitSepRuns ['1', '0', ' ', '1', '0'] = [['1', '0'], ['1', '0']] := by decide
  have p0 : parseArgToken ['0'] = 0 := by
    simp +decide [parseArgToken, jsParseFloat, parseExp, digitsToNat, Char.isDigit]
  have p10 : parseArgToken ['1', '0'] = 10 := by
    simp +decide [parseArgToken, jsParseFloat, parseExp, digitsToNat, Char.isDigit]
  have hZ : 'Z'.toUpper = 'Z' := rfl
  unfold tokenizePathQ
  rw [h1]
  simp only [List.filterMap_cons, List.filterMap_nil, t1, t2, t3, t4, s1, s2, s3,
    List.map_cons, List.map_nil, p0, p10, hZ, List.isEmpty_cons, List.isEmpty_nil,
    Bool.not_false, Bool.not_true, if_true, if_false]
  simp

theorem parsePathData_square :
    parsePathData "M 0 0 L 10 0 L 10 10 Z" =
    [⟨.M, [⟨0, 0⟩], none⟩, ⟨.L, [⟨10, 0⟩], none⟩, ⟨.L, [⟨10, 10⟩], none⟩, ⟨.Z, [], none⟩] := by
  have htok : tokenizePath "M 0 0 L 10 0 L 10 10 Z" =
      [('M', [(0 : ℝ), 0]), ('L', [10, 0]), ('L', [10, 10]), ('Z', [])] := by
    unfold tokenizePath
    rw [tokenizePathQ_square]
    norm_num
  unfold parsePathData
  rw [htok]
  simp +decide [processCommand, chunks, List.enum]

/-- Claim C4: parsing `"M 0 0 L 10 0 L 10 10 Z"` yields exactly the four
segments `M, L, L, Z` in order, bounding box `(0,0,10,10)` and total
length exactly 20 (the `Z` segment contributing nothing). -/
theorem createPathData_square :
    (createPathData "M 0 0 L 10 0 L 10 10 Z").segments.map (fun s => s.type) =
      [.M, .L, .L, .Z] ∧
    (createPathData "M 0 0 L 10 0 L 10 10 Z").bounds = ⟨0, 0, 10, 10⟩ ∧
    (createPathData "M 0 0 L 10 0 L 10 10 Z").totalLength = 20 := by
  have hnorm : normalizeToCubicBeziers
      [⟨.M, [⟨0, 0⟩], none⟩, ⟨.L, [⟨10, 0⟩], none⟩, ⟨.L, [⟨10, 10⟩], none⟩, ⟨.Z, [], none⟩] =
      [⟨.M, [⟨0, 0⟩], none⟩, ⟨.L, [⟨10, 0⟩], none⟩, ⟨.L, [⟨10, 10⟩], none⟩, ⟨.Z, [], none⟩] := by
    simp [normalizeToCubicBeziers]
  unfold createPathData
  rw [parsePathData_square]
  simp only [hnorm]
  refine ⟨by simp, ?_, ?_⟩
  · simp only [calculatePathBounds, boundsStep, jsMinO, jsMaxO, List.foldl]
    norm_num
  · simp only [List.foldl]
    norm_num
    rw [sqrt_of_sq 10 100 (by norm_num) (by norm_num)]
    norm_num

end CliTrace
